import Mathlib

/-!
Verification of the Podssistant repository's coordination core.

The repository contains two implementations of the same assistant: a
monolithic `podcast_assistant.py` (Azure backends) and modular files
(`audio_handler.py`, `speech_to_text_service.py`, `language_model_service.py`,
`wake_word_detector.py`, `podcast_assistant_app.py`).  Python strings are
modelled as lists of characters, queues as lists, and the relevant methods as
pure state-transition functions.  Each definition's doc comment points at the
source lines it embeds.
-/

namespace Podssistant

/-- Python strings, modelled as lists of characters. -/
abbrev PyStr := List Char

/-! ## Transcript events and the UI poll loop (claims C1, C10)

`SpeechToTextService._recognizing_handler` / `_recognized_handler`
(src/podcast_assistant.py lines 205-216) put dictionaries with a `type` field
of `intermediate`, `final` or `no_match` on `stt_results_queue`; the poll loop
`_check_all_queues_and_update_ui` (lines 1066-1087) consumes them. -/

/-- A transcript event as placed on `stt_results_queue`
(src/podcast_assistant.py lines 205-216). -/
inductive STTEvent
  | intermediate (text : PyStr)
  | final (text : PyStr)
  | noMatch

/-- Effect of one dequeued transcript event on `full_transcription` in
`_check_all_queues_and_update_ui` (src/podcast_assistant.py lines 1074-1081):
only a `final` event with non-empty text appends, as `result['text'] + " "`;
`intermediate` and `no_match` events leave the accumulator unchanged. -/
def processSTTEvent (full : PyStr) (e : STTEvent) : PyStr :=
  match e with
  | .final t => if t = [] then full else full ++ t ++ [' ']
  | _ => full

/-- Draining a sequence of transcript events, in queue order, starting from
accumulated transcript `full`. -/
def processSTTEvents (full : PyStr) (es : List STTEvent) : PyStr :=
  es.foldl processSTTEvent full

/-- The non-empty texts of the `final` events, in order: exactly the segments
that `_check_all_queues_and_update_ui` appends. -/
def finalTexts (es : List STTEvent) : List PyStr :=
  es.filterMap fun e =>
    match e with
    | .final t => if t = [] then none else some t
    | _ => none

/-- The transcript described by the C1 claim's words: the ordered concatenation
of the `Final` events' texts with a single separating space between segments.
This follows the claim, not the source, and is compared against
`processSTTEvents`. -/
def c1ClaimedTranscript (es : List STTEvent) : PyStr :=
  List.intercalate [' ']
    (es.filterMap fun e =>
      match e with
      | .final t => some t
      | _ => none)

/-! ## Question dispatch (claims C4, C9) -/

/-- Python's `str.strip()` whitespace test, on the ASCII whitespace class. -/
def isPySpace (c : Char) : Bool :=
  c = ' ' || c = '\t' || c = '\n' || c = '\r' || c = '\x0b' || c = '\x0c'

/-- Python's `str.strip()`: remove leading and trailing whitespace. -/
def pyStrip (s : PyStr) : PyStr :=
  ((s.dropWhile isPySpace).reverse.dropWhile isPySpace).reverse

/-- The question-entry placeholder text (src/podcast_assistant.py line 732,
src/podcast_assistant_app.py line 70). -/
def placeholderQuestion : PyStr := "Type your question here...".data

/-- `snippet_max_length` (src/podcast_assistant.py line 980). -/
def snippet_max_length : Nat := 2000

/-- The pair of arguments handed to the LLM worker thread
(`_ask_llm_thread_target` in src/podcast_assistant.py, `_get_ai_response` in
src/podcast_assistant_app.py). -/
structure AskRequest where
  question : PyStr
  context : PyStr

/-- `handle_ask_ai` (src/podcast_assistant.py lines 961-1000): returns `some`
request exactly when a worker thread is dispatched to the LLM backend, and
`none` when the call returns early.  The question entry is stripped; empty or
placeholder questions are rejected; the context is `context_override` when
given, else `full_transcription`, and is cut to its trailing
`snippet_max_length` characters only when it is longer than that and
`is_listening_for_question` is false (manual, non-spoken question). -/
def handle_ask_ai (llm_configured : Bool) (question_entry : PyStr)
    (context_override : Option PyStr) (full_transcription : PyStr)
    (is_listening_for_question : Bool) : Option AskRequest :=
  if llm_configured = false then none
  else
    let user_question := pyStrip question_entry
    if user_question = [] ∨ user_question = placeholderQuestion then none
    else
      let ctx0 := context_override.getD full_transcription
      let ctx :=
        if snippet_max_length < ctx0.length ∧ is_listening_for_question = false then
          ctx0.drop (ctx0.length - snippet_max_length)
        else ctx0
      if pyStrip ctx = [] ∧ pyStrip user_question = [] then none
      else some { question := user_question, context := ctx }

/-- `_ask_ai` (src/podcast_assistant_app.py lines 234-256): strips the
question, rejects empty or placeholder input, takes the trailing 2000
characters of `full_transcription` as context, rejects an empty context, and
otherwise dispatches the worker thread. -/
def ask_ai_modular (question_raw full_transcription : PyStr) : Option AskRequest :=
  let question := pyStrip question_raw
  if question = [] ∨ question = placeholderQuestion then none
  else
    let context := full_transcription.drop (full_transcription.length - 2000)
    if context = [] then none
    else some { question := question, context := context }

/-! ## Wake-event handling in the poll loop (claim C3) -/

/-- The orchestrator state touched by the `WAKE_WORD_DETECTED` branch of
`_check_all_queues_and_update_ui` (src/podcast_assistant.py lines 1109-1134).
`capture_threads` counts the spoken-question capture threads launched (each of
which is what can lead to an LLM call). -/
structure OrchestratorState where
  is_listening_for_question : Bool
  full_transcription : PyStr
  context_for_spoken_question : PyStr
  stt_paused : Bool
  capture_threads : Nat

/-- Handling of one dequeued `WAKE_WORD_DETECTED` event
(src/podcast_assistant.py lines 1114-1134): everything is guarded by
`if not self.is_listening_for_question`; when the guard flag is already set the
event is consumed with no effect.  Otherwise the flag is set, the transcript is
snapshotted as the spoken-question context, the STT service is paused when a
session is active (`stt_present` models `self.stt_service` being non-None,
`audio_recording` models `self.audio_handler.is_recording`), and one capture
thread is started. -/
def handleWakeDetected (st : OrchestratorState) (stt_present audio_recording : Bool) :
    OrchestratorState :=
  if st.is_listening_for_question then st
  else
    { st with
      is_listening_for_question := true
      context_for_spoken_question := st.full_transcription
      stt_paused := if stt_present && audio_recording then true else st.stt_paused
      capture_threads := st.capture_threads + 1 }

/-! ## SpeechToTextService pause/resume and its forwarding thread (claim C2) -/

/-- State of `SpeechToTextService` (src/podcast_assistant.py lines 138-324)
together with its audio-processor thread.  `processing_active` is the
`_processing_audio_active` event; `thread_alive` records whether the
`_audio_processor_thread_target` loop is still running; `push_stream_ref` is
`self.push_stream is not None` (closing the stream does not clear the
reference); `push_stream_open` is whether the stream has not been closed;
`frame_queue` holds the pending `audio_queue` items with `none` as the stop
sentinel; `forwarded` lists the payloads written to the push stream, in
order. -/
structure STTServiceState where
  is_configured : Bool
  processing_active : Bool
  thread_alive : Bool
  push_stream_ref : Bool
  push_stream_open : Bool
  recognizer_ref : Bool
  frame_queue : List (Option Nat)
  forwarded : List Nat
  deriving DecidableEq

/-- `pause()` (src/podcast_assistant.py lines 311-314): clears the
`_processing_audio_active` flag when configured and active. -/
def STTpause (st : STTServiceState) : STTServiceState :=
  if st.is_configured && st.processing_active then
    { st with processing_active := false }
  else st

/-- `resume()` (src/podcast_assistant.py lines 316-324): sets the flag again
when configured and the recognizer and push-stream references are present.  It
does not spawn a new processor thread (only `start()` does). -/
def STTresume (st : STTServiceState) : STTServiceState :=
  if st.is_configured && st.recognizer_ref && st.push_stream_ref then
    { st with processing_active := true }
  else st

/-- One iteration of the `while self._processing_audio_active.is_set()` loop in
`_audio_processor_thread_target` (src/podcast_assistant.py lines 238-260),
including the `finally` block that closes the push stream when the loop exits.
A cleared flag ends the loop; the `None` sentinel clears the flag and breaks;
a frame is written only when the push-stream reference is present, else the
thread breaks out.  A dead thread leaves the state unchanged. -/
def processorStep (st : STTServiceState) : STTServiceState :=
  if st.thread_alive = false then st
  else if st.processing_active = false then
    { st with thread_alive := false, push_stream_open := false }
  else
    match st.frame_queue with
    | [] => st
    | none :: rest =>
        { st with frame_queue := rest, processing_active := false,
                  thread_alive := false, push_stream_open := false }
    | some f :: rest =>
        if st.push_stream_ref then
          { st with frame_queue := rest, forwarded := st.forwarded ++ [f] }
        else
          { st with frame_queue := rest, thread_alive := false,
                    push_stream_open := false }

/-- `AudioHandler._audio_callback` putting one frame on the queue
(src/podcast_assistant.py line 64). -/
def enqueueFrame (st : STTServiceState) (f : Nat) : STTServiceState :=
  { st with frame_queue := st.frame_queue ++ [some f] }

/-- A configured service in the middle of an active session: recognizer and
push stream live, processor thread running, queue empty. -/
def runningSTT : STTServiceState :=
  { is_configured := true, processing_active := true, thread_alive := true,
    push_stream_ref := true, push_stream_open := true, recognizer_ref := true,
    frame_queue := [], forwarded := [] }

/-! ## Frame forwarding and the stop sentinel (claim C5) -/

/-- `SpeechToTextService._audio_generator`
(src/speech_to_text_service.py lines 129-137), applied to the queue contents:
yields `tobytes` of each frame, stops at the `None` sentinel.  The result is
`none` when the queue is exhausted without a sentinel, since the loop would
then poll `queue.Empty` forever instead of terminating. -/
def audio_generator {α β : Type} (tobytes : α → β) :
    List (Option α) → Option (List β)
  | [] => none
  | none :: _ => some []
  | some f :: rest => (audio_generator tobytes rest).map (fun l => tobytes f :: l)

/-- State of `AudioHandler` (src/audio_handler.py lines 8-99):
`input_stream` models `self.input_stream is not None`. -/
structure AudioHandlerState (α : Type) where
  is_recording : Bool
  input_stream : Bool
  audio_queue : List (Option α)

/-- `stop_recording` (src/audio_handler.py lines 85-99): a no-op unless
recording with a live stream; otherwise stops the stream, clears
`is_recording`, enqueues the `None` sentinel, and drops the stream
reference. -/
def stop_recording {α : Type} (st : AudioHandlerState α) : AudioHandlerState α :=
  if st.is_recording = false ∨ st.input_stream = false then st
  else
    { is_recording := false, input_stream := false,
      audio_queue := st.audio_queue ++ [none] }

/-! ## Session start (claim C6) -/

/-- The state touched by `handle_start_listening`
(src/podcast_assistant.py lines 880-910). -/
structure SessionState where
  stt_configured : Bool
  wwd_detecting : Bool
  audio_recording : Bool
  stt_started : Bool
  status_error : Bool

/-- `handle_start_listening` (src/podcast_assistant.py lines 880-910) together
with the audio-start outcome of `_recording_target` (lines 862-878, reading
the evident intent of its malformed try/except block).  After the configured
check it stops wake-word detection, then launches the recording thread —
whose failure only flags an error status and resets the UI buttons — and then
calls `stt_service.start` unconditionally; a failed recognizer init inside
`start` returns without touching the audio capture.  `audio_start_ok` and
`stt_init_ok` are the outcomes of the two sub-starts. -/
def handle_start_listening (audio_start_ok stt_init_ok : Bool)
    (st : SessionState) : SessionState :=
  if st.stt_configured = false then st
  else
    let st1 : SessionState := { st with wwd_detecting := false }
    let st2 : SessionState :=
      if audio_start_ok then { st1 with audio_recording := true }
      else { st1 with audio_recording := false, status_error := true }
    if stt_init_ok then { st2 with stt_started := true } else st2

/-- The C6 claim's words: whenever either sub-start fails, the whole session
start fails and the other sub-start has been rolled back, leaving neither
running.  This follows the claim, to be compared with
`handle_start_listening`. -/
def c6Claim (audio_start_ok stt_init_ok : Bool) (st : SessionState) : Prop :=
  audio_start_ok = false ∨ stt_init_ok = false →
    (handle_start_listening audio_start_ok stt_init_ok st).audio_recording = false ∧
    (handle_start_listening audio_start_ok stt_init_ok st).stt_started = false

/-! ## Wake-word detector activations (claim C7) -/

/-- An event delivered through the detector's registered callbacks
(src/wake_word_detector.py lines 11-14, 51-57). -/
inductive WakeCallbackEvent
  | detected (keyword : PyStr)
  | failure (message : PyStr)

/-- State of `WakeWordDetector` (src/wake_word_detector.py lines 6-15):
`model_configured` is `self.model_path is not None` (set by a successful
`configure`), and `has_detected_callback` is whether a `detected` callback is
registered. -/
structure WakeWordState where
  model_configured : Bool
  is_detecting : Bool
  has_detected_callback : Bool

/-- `start_detection` (src/wake_word_detector.py lines 38-60): fails without a
configured model; is a no-op returning success while already detecting;
otherwise sets `is_detecting`, fires the `detected` callback exactly once with
keyword `Hi_pod` (the simulated detection), and the `finally` clause clears
`is_detecting` again before returning.  Result: new state, emitted events,
return value. -/
def start_detection (st : WakeWordState) :
    WakeWordState × List WakeCallbackEvent × Bool :=
  if st.model_configured = false then (st, [], false)
  else if st.is_detecting then (st, [], true)
  else
    ({ st with is_detecting := false },
     if st.has_detected_callback then
       [WakeCallbackEvent.detected "Hi_pod".data]
     else [],
     true)

/-- `stop_detection` (src/wake_word_detector.py lines 62-70): a no-op unless
detecting; emits no events. -/
def stop_detection (st : WakeWordState) : WakeWordState × List WakeCallbackEvent :=
  if st.is_detecting = false then (st, [])
  else ({ st with is_detecting := false }, [])

/-- An explicit operation on the detector: the calls made by
`_start_wake_word_detection` (src/podcast_assistant_app.py lines 276-284) and
the stop path. -/
inductive WWDOp
  | start
  | stop

/-- Run one detector operation, collecting the emitted events. -/
def runWWDOp (st : WakeWordState) (op : WWDOp) :
    WakeWordState × List WakeCallbackEvent :=
  match op with
  | .start =>
      let r := start_detection st
      (r.1, r.2.1)
  | .stop => stop_detection st

/-- Run a sequence of detector operations, concatenating the emitted events in
order. -/
def runWWDOps (st : WakeWordState) : List WWDOp → WakeWordState × List WakeCallbackEvent
  | [] => (st, [])
  | op :: ops =>
      let r := runWWDOp st op
      let rest := runWWDOps r.1 ops
      (rest.1, r.2 ++ rest.2)

/-- The number of explicit `start` calls in a sequence of operations. -/
def countStarts : List WWDOp → Nat
  | [] => 0
  | WWDOp.start :: ops => countStarts ops + 1
  | WWDOp.stop :: ops => countStarts ops

/-! ## LanguageModelService configuration (claim C8) -/

/-- State of `LanguageModelService` (src/language_model_service.py
lines 6-12). -/
structure LMServiceState where
  api_key : Option PyStr
  is_available : Bool

/-- `LanguageModelService.configure` (src/language_model_service.py
lines 14-26): raises on a falsy (empty) API key, which the handler turns into
`is_available = False` and a `False` return, leaving the stored key untouched;
any non-empty key is stored and the service becomes available. -/
def LMconfigure (st : LMServiceState) (api_key : PyStr) : LMServiceState × Bool :=
  if api_key = [] then ({ st with is_available := false }, false)
  else ({ st with api_key := some api_key, is_available := true }, true)

/-- The placeholder credential values the repository itself uses
(src/podcast_assistant.py lines 340-342 and 614-617). -/
def placeholder_llm_key : PyStr := "YOUR_AZURE_OPENAI_KEY_HERE".data

/-- The C8 claim's words: every missing or placeholder credential value makes
`configure` return failure and leave the service not configured.  This follows
the claim, to be compared with `LMconfigure`. -/
def c8Claim : Prop :=
  ∀ (st : LMServiceState) (key : PyStr),
    key = [] ∨ key = placeholder_llm_key →
      (LMconfigure st key).2 = false ∧ (LMconfigure st key).1.is_available = false

/-! ## Theorems -/

/-- Helper: draining events appends, to the starting accumulator, each
non-empty `final` text followed by one space. -/
theorem processSTTEvents_append_eq (es : List STTEvent) :
    ∀ full : PyStr,
      processSTTEvents full es
        = full ++ List.flatten ((finalTexts es).map (fun t => t ++ [' '])) := by
  induction es with
  | nil => intro full; simp [processSTTEvents, finalTexts]
  | cons e es ih =>
      intro full
      have hstep : processSTTEvents full (e :: es)
          = processSTTEvents (processSTTEvent full e) es := rfl
      cases e with
      | intermediate t =>
          rw [hstep, ih]
          simp [processSTTEvent, finalTexts, List.filterMap_cons]
      | noMatch =>
          rw [hstep, ih]
          simp [processSTTEvent, finalTexts, List.filterMap_cons]
      | final t =>
          rw [hstep, ih]
          by_cases ht : t = [] <;>
            simp [processSTTEvent, finalTexts, List.filterMap_cons, ht,
              List.append_assoc]

/-- C1 (counterexample): a single `Final` event with text `"a"` makes
`full_transcription` equal to `"a "` — with a trailing space — while the claim
predicts the bare concatenation `"a"`. -/
theorem c1_counterexample :
    processSTTEvents [] [STTEvent.final ['a']]
      ≠ c1ClaimedTranscript [STTEvent.final ['a']] := by
  decide

/-- C1 (amended): the accumulated transcript is the ordered concatenation of
the non-empty `Final` texts, each followed by a single space (so there is a
trailing space after the last segment), and its length is monotonically
non-decreasing as events are processed. -/
theorem c1_transcript_trailing_space (es : List STTEvent) (full : PyStr) :
    processSTTEvents [] es
      = List.flatten ((finalTexts es).map (fun t => t ++ [' '])) ∧
    full.length ≤ (processSTTEvents full es).length := by
  constructor
  · simpa using processSTTEvents_append_eq es []
  · rw [processSTTEvents_append_eq es full]
    simp

/-- C10: a `Final` event with empty text leaves `full_transcription`
unchanged — no empty segment and no separating space is appended. -/
theorem c10_empty_final_noop (full : PyStr) :
    processSTTEvent full (STTEvent.final []) = full := by
  simp [processSTTEvent]

/-- C9: a question that strips to the empty string is rejected by both
implementations' ask paths.  No LLM worker thread is dispatched and no request
is built. -/
theorem c9_blank_question_rejected (llm_configured : Bool) (q : PyStr)
    (ov : Option PyStr) (full : PyStr) (listening : Bool)
    (h : pyStrip q = []) :
    handle_ask_ai llm_configured q ov full listening = none ∧
    ask_ai_modular q full = none := by
  cases llm_configured <;> simp [handle_ask_ai, ask_ai_modular, h]

/-- C9 witness: a three-space question is rejected by both paths. -/
theorem c9_witness :
    handle_ask_ai true [' ', ' ', ' '] none [] false = none ∧
    ask_ai_modular [' ', ' ', ' '] [] = none :=
  c9_blank_question_rejected true [' ', ' ', ' '] none [] false (by decide)

/-- C4: for a manual (non-spoken) question on a transcript longer than 2000
characters, the context dispatched to the LLM backend is exactly the trailing
2000 characters of the transcript; a spoken-question context override is
dispatched verbatim, never re-truncated. -/
theorem c4_context_truncation (q full ctx : PyStr)
    (hq : pyStrip q = q) (hne : q ≠ []) (hph : q ≠ placeholderQuestion)
    (hlen : 2000 < full.length) :
    handle_ask_ai true q none full false
        = some { question := q, context := full.drop (full.length - 2000) } ∧
    (full.drop (full.length - 2000)).length = 2000 ∧
    handle_ask_ai true q (some ctx) full true
        = some { question := q, context := ctx } := by
  refine ⟨?_, ?_, ?_⟩
  · simp [handle_ask_ai, hq, hne, hph, snippet_max_length, hlen]
  · rw [List.length_drop]
    omega
  · simp [handle_ask_ai, hq, hne, hph, snippet_max_length]

/-- C4 witness: question `"a"`, a 2001-character transcript, and a spoken
override `"c"`. -/
theorem c4_witness :
    (handle_ask_ai true ['a'] none (List.replicate 2001 'b') false
        = some { question := ['a'],
                 context := (List.replicate 2001 'b').drop
                   ((List.replicate 2001 'b').length - 2000) }) ∧
    ((List.replicate 2001 'b').drop
        ((List.replicate 2001 'b').length - 2000)).length = 2000 ∧
    handle_ask_ai true ['a'] (some ['c']) (List.replicate 2001 'b') true
        = some { question := ['a'], context := ['c'] } :=
  c4_context_truncation ['a'] (List.replicate 2001 'b') ['c'] (by decide)
    (by decide) (by decide) (by rw [List.length_replicate]; omega)

/-- C3: a `WAKE_WORD_DETECTED` event handled while `is_listening_for_question`
is already set is a no-op — the orchestrator state is unchanged, so no second
capture thread is started and no second LLM call can originate from it. -/
theorem c3_wake_reentrancy_guard (st : OrchestratorState)
    (stt_present audio_recording : Bool)
    (h : st.is_listening_for_question = true) :
    handleWakeDetected st stt_present audio_recording = st := by
  simp [handleWakeDetected, h]

/-- C3 witness: a concrete state with the in-flight guard set and one capture
thread already running is untouched by another wake event. -/
theorem c3_witness :
    handleWakeDetected
        { is_listening_for_question := true, full_transcription := [],
          context_for_spoken_question := [], stt_paused := false,
          capture_threads := 1 } true true
      = { is_listening_for_question := true, full_transcription := [],
          context_for_spoken_question := [], stt_paused := false,
          capture_threads := 1 } :=
  c3_wake_reentrancy_guard _ true true rfl

/-- The C2 failing scenario: from an active session, `pause()`, one loop
iteration of the processor thread, `resume()`, then a frame enqueued. -/
def c2FinalState : STTServiceState :=
  enqueueFrame (STTresume (processorStep (STTpause runningSTT))) 7

/-- C2: after `pause()` the forwarding loop's `while` condition fails, so the
thread exits and the `finally` block closes the push stream; `resume()` only
re-sets the flag without respawning the thread.  The state reached after
enqueuing a fresh frame is a fixed point of the processor step with the frame
stuck in the queue, the thread dead, the stream closed, and nothing ever
forwarded — contrary to the claim that frames enqueued after `resume()` are
again delivered to the backend. -/
theorem c2_resume_does_not_restart_forwarding :
    processorStep c2FinalState = c2FinalState ∧
    c2FinalState.forwarded = [] ∧
    c2FinalState.thread_alive = false ∧
    c2FinalState.push_stream_open = false ∧
    c2FinalState.processing_active = true ∧
    c2FinalState.frame_queue = [some 7] := by
  decide

/-- Helper: the generator yields the frames before the sentinel, in order, and
terminates there. -/
theorem audio_generator_sentinel {α β : Type} (tobytes : α → β) (frames : List α)
    (rest : List (Option α)) :
    audio_generator tobytes (frames.map some ++ none :: rest)
      = some (frames.map tobytes) := by
  induction frames with
  | nil => simp [audio_generator]
  | cons f fs ih => simp [audio_generator, ih]

/-- C5: `stop_recording` on an active handler enqueues the `None` sentinel
after the pending frames, and the forwarding generator then yields exactly the
`n` frame payloads in order and terminates instead of blocking. -/
theorem c5_sentinel_drains {α β : Type} (tobytes : α → β) (frames : List α)
    (st : AudioHandlerState α)
    (hrec : st.is_recording = true) (hstream : st.input_stream = true)
    (hq : st.audio_queue = frames.map some) :
    (stop_recording st).audio_queue = frames.map some ++ [none] ∧
    audio_generator tobytes (stop_recording st).audio_queue
      = some (frames.map tobytes) := by
  have h1 : (stop_recording st).audio_queue = frames.map some ++ [none] := by
    simp [stop_recording, hrec, hstream, hq]
  refine ⟨h1, ?_⟩
  rw [h1]
  simpa using audio_generator_sentinel tobytes frames []

/-- C5 witness: three queued frames, then stop; the generator forwards the
three payloads in order and terminates. -/
theorem c5_witness :
    (@stop_recording Nat ⟨true, true, [some 1, some 2, some 3]⟩).audio_queue
      = [1, 2, 3].map some ++ [none] ∧
    audio_generator id
        (@stop_recording Nat ⟨true, true, [some 1, some 2, some 3]⟩).audio_queue
      = some ([1, 2, 3].map id) :=
  c5_sentinel_drains id [1, 2, 3] ⟨true, true, [some 1, some 2, some 3]⟩ rfl rfl rfl

/-- C6 counterexample: with the service configured, a failed audio start
combined with a successful transcription init leaves the transcription service
started — the claimed rollback does not happen. -/
theorem c6_counterexample :
    ¬ c6Claim false true
        { stt_configured := true, wwd_detecting := false, audio_recording := false,
          stt_started := false, status_error := false } := by
  intro h
  have h2 := (h (Or.inl rfl)).2
  exact absurd h2 (by decide)

/-- C6 (amended): when the transcription service is configured,
`handle_start_listening` stops the wake-word detector, but the two sub-starts
are independent: the audio capture ends up recording exactly when its start
succeeded, and the transcription service ends up started exactly when its init
succeeded (or it already was) — a failure of either sub-start is not rolled
back by stopping the other. -/
theorem c6_no_rollback (audio_start_ok stt_init_ok : Bool) (st : SessionState)
    (h : st.stt_configured = true) :
    (handle_start_listening audio_start_ok stt_init_ok st).wwd_detecting = false ∧
    (handle_start_listening audio_start_ok stt_init_ok st).audio_recording
        = audio_start_ok ∧
    (handle_start_listening audio_start_ok stt_init_ok st).stt_started
        = (stt_init_ok || st.stt_started) := by
  cases audio_start_ok <;> cases stt_init_ok <;> simp [handle_start_listening, h]

/-- C6 witness: audio start fails while transcription init succeeds; the
detector is stopped, audio is not recording, and transcription is started. -/
theorem c6_witness :
    (handle_start_listening false true
        { stt_configured := true, wwd_detecting := true, audio_recording := false,
          stt_started := false, status_error := false }).wwd_detecting = false ∧
    (handle_start_listening false true
        { stt_configured := true, wwd_detecting := true, audio_recording := false,
          stt_started := false, status_error := false }).audio_recording = false ∧
    (handle_start_listening false true
        { stt_configured := true, wwd_detecting := true, audio_recording := false,
          stt_started := false, status_error := false }).stt_started
        = (true || false) :=
  c6_no_rollback false true _ rfl

/-- C7: from a configured, callback-registered, non-detecting state, any
sequence of explicit `start`/`stop` calls emits exactly one wake event per
explicit `start` — in particular each activation fires once, leaves
`is_detecting` false again (self-stops), and emits nothing further until
`start` is called again. -/
theorem c7_one_event_per_start (ops : List WWDOp) (st : WakeWordState)
    (hm : st.model_configured = true) (hd : st.is_detecting = false)
    (hc : st.has_detected_callback = true) :
    runWWDOps st ops
      = (st, List.replicate (countStarts ops)
          (WakeCallbackEvent.detected "Hi_pod".data)) := by
  induction ops with
  | nil => simp [runWWDOps, countStarts]
  | cons op ops ih =>
      cases op with
      | start =>
          have h1 : runWWDOp st WWDOp.start
              = (st, [WakeCallbackEvent.detected "Hi_pod".data]) := by
            obtain ⟨m, d, c⟩ := st
            simp_all [runWWDOp, start_detection]
          simp [runWWDOps, h1, ih, countStarts, List.replicate_succ]
      | stop =>
          have h1 : runWWDOp st WWDOp.stop = (st, []) := by
            simp [runWWDOp, stop_detection, hd]
          simp [runWWDOps, h1, ih, countStarts]

/-- C7 witness: two explicit starts with a stop in between emit exactly two
wake events. -/
theorem c7_witness :
    runWWDOps
        { model_configured := true, is_detecting := false,
          has_detected_callback := true }
        [WWDOp.start, WWDOp.stop, WWDOp.start]
      = ({ model_configured := true, is_detecting := false,
           has_detected_callback := true },
         List.replicate (countStarts [WWDOp.start, WWDOp.stop, WWDOp.start])
           (WakeCallbackEvent.detected "Hi_pod".data)) :=
  c7_one_event_per_start [WWDOp.start, WWDOp.stop, WWDOp.start] _ rfl rfl rfl

/-- C8 counterexample: `configure` called with the repository's own
placeholder key returns success and marks the service available, so the claim
that every placeholder credential fails closed is false. -/
theorem c8_counterexample : ¬ c8Claim := by
  intro h
  have h2 := (h { api_key := none, is_available := false } placeholder_llm_key
    (Or.inr rfl)).1
  exact absurd h2 (by decide)

/-- C8 (amended): `configure` fails closed exactly on a missing (empty) API
key — returning failure and leaving the service unavailable — while any
non-empty key, placeholder strings included, is accepted and marks the service
available. -/
theorem c8_fails_closed_only_on_missing (st : LMServiceState) (key : PyStr) :
    (LMconfigure st key).2 = !key.isEmpty ∧
    (LMconfigure st key).1.is_available = !key.isEmpty := by
  cases key <;> simp [LMconfigure]

end Podssistant
